import Mathlib

/-!
Shallow embedding of the smartpay-be wallet/transaction subsystem.

Sources embedded:
- src/app/api/routes/v1/wallet.py (deposit, withdraw, transfer, transactions)
- src/app/api/routes/v1/admin.py (monthly transaction and balance summaries)
- src/app/utils/notifier.py and src/app/utils/connection_manager.py
- src/app/api/dependencies.py (auth chain, rate limiting)
- src/app/schemas/schemas.py (amount > 0 request validation)

Monetary amounts are modelled as exact rationals; the claims under study
concern control flow and bookkeeping identities, not floating-point rounding.
-/

namespace SmartPay

/-- An HTTP error as raised by fastapi HTTPException: status code and detail. -/
structure ApiError where
  status : Nat
  detail : String
deriving Repr, DecidableEq

/-- A row of the users table (fields used by the embedded handlers). -/
structure User where
  id : String
  fullname : Option String
  email : Option String
  phone : Option String
  is_active : Bool
  is_verified : Bool
  is_admin : Bool
deriving Repr, DecidableEq

/-- A row of the wallets table. -/
structure Wallet where
  user_id : String
  balance : Rat
deriving Repr, DecidableEq

/-- A row of the transactions table. -/
structure Transaction where
  id : String
  sender_id : Option String
  recipient_id : Option String
  amount : Rat
  card_id : Option String
  description : Option String
  type : String
  status : String
  created_at : Nat
deriving Repr, DecidableEq

/-- The JSONB extra_data payload attached to a notification by notify_user. -/
structure ExtraData where
  transactionId : Option String
  amount : Option Rat
deriving Repr, DecidableEq

/-- A row of the notifications table. -/
structure Notification where
  id : String
  user_id : String
  title : String
  message : String
  type : String
  is_read : Bool
  created_at : Nat
  extra_data : Option ExtraData
deriving Repr, DecidableEq

/-- A websocket push performed by ConnectionManager.send_personal_message. -/
structure WsMessage where
  user_id : String
  event : String
  data : Notification
deriving Repr, DecidableEq

/-- A row of the rate_limit_logs table. -/
structure RateLimitLog where
  id : String
  email : String
  endpoint : String
  ip_address : String
  created_at : Int
deriving Repr, DecidableEq

/-- The database state touched by the embedded handlers.  nextId models the
uuid4 generator (fresh ids), clock models datetime.utcnow timestamps. -/
structure DB where
  users : List User
  wallets : List Wallet
  transactions : List Transaction
  notifications : List Notification
  nextId : Nat
  clock : Nat
deriving Repr, DecidableEq

/-- select(Wallet).where(Wallet.user_id == uid) followed by .scalars().first(). -/
def findWallet (ws : List Wallet) (uid : String) : Option Wallet :=
  ws.find? (fun w => w.user_id == uid)

/-- Mutation of the ORM wallet object returned by findWallet: the first row
matching the user id has its balance replaced. -/
def updateWallet (ws : List Wallet) (uid : String) (f : Rat → Rat) : List Wallet :=
  match ws with
  | [] => []
  | w :: rest =>
      if w.user_id == uid then { w with balance := f w.balance } :: rest
      else w :: updateWallet rest uid f

/-- get_user_by_email from src/app/api/dependencies.py. -/
def get_user_by_email (users : List User) (email : String) : Option User :=
  users.find? (fun u => u.email == some email)

/-- get_user_by_phone from src/app/api/dependencies.py. -/
def get_user_by_phone (users : List User) (phone : String) : Option User :=
  users.find? (fun u => u.phone == some phone)

/-- Python membership test c in s on strings, used for "@" in identifier. -/
def pyCharIn (c : Char) (s : String) : Bool := s.data.contains c

/-- Recipient resolution inside transfer_money: by email when the identifier
contains an @ character, otherwise by phone. -/
def resolveRecipient (users : List User) (identifier : String) : Option User :=
  if pyCharIn '@' identifier then get_user_by_email users identifier
  else get_user_by_phone users identifier

/-- get_current_user / get_current_active_user / get_current_verified_user
dependency chain from src/app/api/dependencies.py, for a token naming uid. -/
def get_current_verified_user (users : List User) (uid : String) : Except ApiError User :=
  match users.find? (fun u => u.id == uid) with
  | none => Except.error ⟨401, "Could not validate credentials"⟩
  | some u =>
      if !u.is_active then Except.error ⟨400, "Inactive user"⟩
      else if !u.is_verified then Except.error ⟨403, "User not verified"⟩
      else Except.ok u

/-- Python truthiness of an Optional[str]: None and the empty string are falsy. -/
def pyTruthyStr (x : Option String) : Bool :=
  match x with
  | none => false
  | some s => !(s == "")

/-- Python truthiness of an Optional[float]: None and 0.0 are falsy. -/
def pyTruthyRat (x : Option Rat) : Bool :=
  match x with
  | none => false
  | some a => !(a == 0)

/-- Python a or b on optional strings: first operand when truthy, else second. -/
def pyOrStr (a b : Option String) : Option String :=
  if pyTruthyStr a then a else b

/-- Rendering of an optional string inside an f-string: None prints as "None". -/
def pyShow (a : Option String) : String :=
  match a with
  | some s => s
  | none => "None"

/-- recipient.fullname or recipient.email or recipient.phone as rendered in the
transfer notification messages. -/
def displayName (u : User) : String :=
  pyShow (pyOrStr u.fullname (pyOrStr u.email u.phone))

/-- Decimal rendering of the .2f f-string amount formatting; no claim under
study depends on the message text. -/
def fmtAmount (a : Rat) : String := toString a

/-- notify_user from src/app/utils/notifier.py: inserts one Notification row,
then pushes over the websocket exactly when the user id is a key of the
connection manager table.  Returns the new DB, the pushed messages, and the
response data (modelled by the notification row it mirrors). -/
def notify_user (db : DB) (conns : List String) (user_id title message : String)
    (type : String) (transaction_id : Option String) (amount : Option Rat) :
    DB × List WsMessage × Notification :=
  let extra_data : Option ExtraData :=
    if pyTruthyStr transaction_id || pyTruthyRat amount then
      some ⟨transaction_id, amount⟩
    else none
  let n : Notification :=
    { id := toString db.nextId, user_id := user_id, title := title, message := message,
      type := type, is_read := false, created_at := db.clock, extra_data := extra_data }
  let db2 := { db with
    notifications := db.notifications ++ [n]
    nextId := db.nextId + 1
    clock := db.clock + 1 }
  let sent := if conns.contains user_id then [⟨user_id, "new_notification", n⟩] else []
  (db2, sent, n)

/-- top_up_wallet handler from src/app/api/routes/v1/wallet.py (deposit). -/
def top_up_wallet (db : DB) (uid : String) (amount : Rat) (card_id : String) :
    Except ApiError Wallet × DB :=
  match findWallet db.wallets uid with
  | none => (Except.error ⟨404, "Wallet not found"⟩, db)
  | some wallet =>
      let tx : Transaction :=
        { id := toString db.nextId, sender_id := none, recipient_id := some uid,
          amount := amount, card_id := some card_id, description := none,
          type := "deposit", status := "completed", created_at := db.clock }
      let db2 := { db with
        wallets := updateWallet db.wallets uid (fun b => b + amount)
        transactions := db.transactions ++ [tx]
        nextId := db.nextId + 1
        clock := db.clock + 1 }
      (Except.ok { wallet with balance := wallet.balance + amount }, db2)

/-- withdraw_wallet handler from src/app/api/routes/v1/wallet.py. -/
def withdraw_wallet (db : DB) (uid : String) (amount : Rat) (card_id : String) :
    Except ApiError Wallet × DB :=
  if amount ≤ 0 then (Except.error ⟨400, "Amount must be positive"⟩, db)
  else
    match findWallet db.wallets uid with
    | none => (Except.error ⟨404, "Wallet not found"⟩, db)
    | some wallet =>
        if wallet.balance < amount then (Except.error ⟨400, "Insufficient balance"⟩, db)
        else
          let tx : Transaction :=
            { id := toString db.nextId, sender_id := none, recipient_id := some uid,
              amount := amount, card_id := some card_id, description := none,
              type := "withdraw", status := "completed", created_at := db.clock }
          let db2 := { db with
            wallets := updateWallet db.wallets uid (fun b => b - amount)
            transactions := db.transactions ++ [tx]
            nextId := db.nextId + 1
            clock := db.clock + 1 }
          (Except.ok { wallet with balance := wallet.balance - amount }, db2)

/-- transfer_money handler from src/app/api/routes/v1/wallet.py.  The guard
order follows the source: sender wallet, balance check, recipient resolution,
recipient wallet, mutation, transaction insert, two notify_user calls. -/
def transfer_money (db : DB) (conns : List String) (current_user : User) (amount : Rat)
    (recipient_identifier : String) (description : Option String) :
    Except ApiError Transaction × DB × List WsMessage :=
  match findWallet db.wallets current_user.id with
  | none => (Except.error ⟨404, "Sender wallet not found"⟩, db, [])
  | some sender_wallet =>
      if sender_wallet.balance < amount then
        (Except.error ⟨400, "Insufficient balance"⟩, db, [])
      else
        match resolveRecipient db.users recipient_identifier with
        | none => (Except.error ⟨404, "Recipient not found"⟩, db, [])
        | some recipient =>
            match findWallet db.wallets recipient.id with
            | none => (Except.error ⟨404, "Recipient wallet not found"⟩, db, [])
            | some _ =>
                let wallets2 :=
                  updateWallet (updateWallet db.wallets current_user.id (fun b => b - amount))
                    recipient.id (fun b => b + amount)
                let tx : Transaction :=
                  { id := toString db.nextId, sender_id := some current_user.id,
                    recipient_id := some recipient.id, amount := amount, card_id := none,
                    description := description, type := "transfer", status := "completed",
                    created_at := db.clock }
                let db2 := { db with
                  wallets := wallets2
                  transactions := db.transactions ++ [tx]
                  nextId := db.nextId + 1
                  clock := db.clock + 1 }
                let r1 := notify_user db2 conns current_user.id "Transfer Successful"
                  ("You sent $" ++ fmtAmount amount ++ " to " ++ displayName recipient)
                  "transaction" (some tx.id) (some amount)
                let r2 := notify_user r1.1 conns recipient.id "You've Received Money"
                  ("You received $" ++ fmtAmount amount ++ " from " ++ displayName current_user)
                  "transaction" (some tx.id) (some amount)
                (Except.ok tx, r2.1, r1.2.1 ++ r2.2.1)

/-- Pydantic validation of TopUpCreate / TransactionCreate: amount gt 0, else a
422 validation error is returned before the handler runs. -/
def amountValidationError : ApiError := ⟨422, "ensure this value is greater than 0"⟩

/-- POST /wallet/deposit: auth dependency, body validation, then the handler. -/
def depositEndpoint (db : DB) (uid : String) (amount : Rat) (card_id : String) :
    Except ApiError Wallet × DB :=
  match get_current_verified_user db.users uid with
  | Except.error e => (Except.error e, db)
  | Except.ok u =>
      if amount ≤ 0 then (Except.error amountValidationError, db)
      else top_up_wallet db u.id amount card_id

/-- POST /wallet/withdraw: auth dependency, body validation, then the handler. -/
def withdrawEndpoint (db : DB) (uid : String) (amount : Rat) (card_id : String) :
    Except ApiError Wallet × DB :=
  match get_current_verified_user db.users uid with
  | Except.error e => (Except.error e, db)
  | Except.ok u =>
      if amount ≤ 0 then (Except.error amountValidationError, db)
      else withdraw_wallet db u.id amount card_id

/-- POST /wallet/transfer: auth dependency, body validation, then the handler. -/
def transferEndpoint (db : DB) (conns : List String) (uid : String) (amount : Rat)
    (recipient_identifier : String) (description : Option String) :
    Except ApiError Transaction × DB × List WsMessage :=
  match get_current_verified_user db.users uid with
  | Except.error e => (Except.error e, db, [])
  | Except.ok u =>
      if amount ≤ 0 then (Except.error amountValidationError, db, [])
      else transfer_money db conns u amount recipient_identifier description

/-- A transaction row projected to what the admin volume summary reads: the
calendar month and year extracted from created_at, and the amount. -/
structure TxRow where
  month : Nat
  year : Nat
  amount : Rat
deriving Repr, DecidableEq

/-- Result of a count/sum/avg aggregate query; NULL sum and avg over an empty
selection are coalesced to 0 as in the handlers. -/
structure MonthAgg where
  count : Nat
  total : Rat
  avg : Rat
deriving Repr, DecidableEq

/-- select count(id), sum(amount), avg(amount) where month and year match. -/
def txAgg (rows : List TxRow) (year m : Nat) : MonthAgg :=
  let sel := rows.filter (fun r => r.month == m && r.year == year)
  let total := (sel.map (fun r => r.amount)).sum
  { count := sel.length, total := total,
    avg := if sel.length = 0 then 0 else total / (sel.length : Rat) }

/-- Python round(x, 2); ties at the third decimal are not exercised by any
claim, so half-up rounding stands in for float half-even. -/
def round2 (x : Rat) : Rat := ((round (x * 100) : Int) : Rat) / 100

/-- Month names as produced by strftime. -/
def monthName (m : Nat) : String :=
  ["Jan", "Feb", "Mar", "Apr", "May", "Jun", "Jul", "Aug", "Sep", "Oct", "Nov",
   "Dec"].getD (m - 1) ""

/-- One element of monthlyStats in the admin transaction summary. -/
structure MonthlyStat where
  month : String
  monthNumber : Nat
  averageAmount : Rat
  totalTransactions : Nat
  totalVolume : Rat
  trend : String
  changePercentage : Rat
deriving Repr, DecidableEq, Inhabited

/-- Trend and changePercentage computation of get_admin_transaction_summary:
against previous_valid_avg when that is present and nonzero. -/
def txTrendChange (avg : Rat) (previous_valid_avg : Option Rat) : String × Rat :=
  match previous_valid_avg with
  | none => (if avg > 0 then "up" else "stable", if avg > 0 then 100 else 0)
  | some p =>
      if p = 0 then (if avg > 0 then "up" else "stable", if avg > 0 then 100 else 0)
      else
        let change := (avg - p) / p * 100
        (if |change| < 1 / 10 then "stable" else if change > 0 then "up" else "down",
         change)

/-- The MonthlyStat assembled for one month of the transaction summary. -/
def mkTxStat (rows : List TxRow) (year m : Nat) (previous_valid_avg : Option Rat) :
    MonthlyStat :=
  let agg := txAgg rows year m
  let tc := txTrendChange agg.avg previous_valid_avg
  { month := monthName m, monthNumber := m, averageAmount := round2 agg.avg,
    totalTransactions := agg.count, totalVolume := round2 agg.total,
    trend := tc.1, changePercentage := round2 tc.2 }

/-- The month loop of get_admin_transaction_summary: previous_valid_avg is
replaced only when the month's average is positive. -/
def txMonthlyStats (rows : List TxRow) (year : Nat) (months : List Nat)
    (previous_valid_avg : Option Rat) : List MonthlyStat :=
  match months with
  | [] => []
  | m :: rest =>
      let avg := (txAgg rows year m).avg
      mkTxStat rows year m previous_valid_avg ::
        txMonthlyStats rows year rest (if avg > 0 then some avg else previous_valid_avg)

/-- Overall statistics object of the transaction summary. -/
structure OverallStats where
  totalTransactions : Nat
  totalVolume : Rat
  overallAverage : Rat
  monthOverMonthGrowth : Rat
deriving Repr, DecidableEq

/-- Response of GET /admin/transactions/summary (lastUpdated omitted). -/
structure AdminTransactionSummary where
  overallStats : OverallStats
  monthlyStats : List MonthlyStat
deriving Repr, DecidableEq

/-- get_admin_transaction_summary from src/app/api/routes/v1/admin.py, for
months January through current_month of the given year. -/
def get_admin_transaction_summary (rows : List TxRow) (year current_month : Nat) :
    AdminTransactionSummary :=
  let months := List.range' 1 current_month
  let monthlyStats := txMonthlyStats rows year months none
  let total_volume := (months.map (fun m => (txAgg rows year m).total)).sum
  let total_transactions := (months.map (fun m => (txAgg rows year m).count)).sum
  let overall_avg :=
    if total_transactions = 0 then 0 else total_volume / (total_transactions : Rat)
  let valid_months := monthlyStats.filter (fun s => decide (0 < s.averageAmount))
  let mom_growth :=
    if 2 ≤ valid_months.length then
      let prev := (valid_months.getD (valid_months.length - 2) default).averageAmount
      let curr := (valid_months.getD (valid_months.length - 1) default).averageAmount
      if prev > 0 then (curr - prev) / prev * 100 else 0
    else 0
  { overallStats :=
      { totalTransactions := total_transactions, totalVolume := round2 total_volume,
        overallAverage := round2 overall_avg, monthOverMonthGrowth := round2 mom_growth },
    monthlyStats := monthlyStats }

/-- A wallet row projected to what the balance summary reads: calendar month
and year of created_at, and the balance. -/
structure WalletRow where
  month : Nat
  year : Nat
  balance : Rat
deriving Repr, DecidableEq

/-- A user row projected to the calendar month and year of created_at. -/
structure UserRow where
  month : Nat
  year : Nat
deriving Repr, DecidableEq

/-- select count(id), sum(balance), avg(balance) over wallets created in the
given month. -/
def walletAgg (ws : List WalletRow) (year m : Nat) : MonthAgg :=
  let sel := ws.filter (fun r => r.month == m && r.year == year)
  let total := (sel.map (fun r => r.balance)).sum
  { count := sel.length, total := total,
    avg := if sel.length = 0 then 0 else total / (sel.length : Rat) }

/-- Count of users created in the given month. -/
def countNewUsers (us : List UserRow) (year m : Nat) : Nat :=
  (us.filter (fun u => u.month == m && u.year == year)).length

/-- calc_change from get_balance_summary: trend and rounded percentage change
against the previous value, with the prev-is-None-or-zero fallback. -/
def calc_change (curr : Rat) (prev : Option Rat) : String × Rat :=
  match prev with
  | none => (if curr > 0 then "up" else "stable", if curr > 0 then 100 else 0)
  | some p =>
      if p = 0 then (if curr > 0 then "up" else "stable", if curr > 0 then 100 else 0)
      else
        let change := (curr - p) / p * 100
        (if change > 0 then "up" else if change < 0 then "down" else "stable",
         round2 change)

/-- One element of monthlyStats in the balance summary. -/
structure MonthlyBalanceStat where
  month : String
  monthNumber : Nat
  averageBalance : Rat
  totalBalance : Rat
  userCount : Nat
  avgTrend : String
  totalTrend : String
  userTrend : String
  avgChangePercentage : Rat
  totalChangePercentage : Rat
  userChangePercentage : Rat
  newUsers : Nat
deriving Repr, DecidableEq, Inhabited

/-- The MonthlyBalanceStat assembled for one month of the balance summary. -/
def mkBalStat (ws : List WalletRow) (us : List UserRow) (year m : Nat)
    (prev_avg prev_total : Option Rat) (prev_count : Option Nat) : MonthlyBalanceStat :=
  let agg := walletAgg ws year m
  let ac := calc_change agg.avg prev_avg
  let tc := calc_change agg.total prev_total
  let uc := calc_change (agg.count : Rat) (prev_count.map (fun c => (c : Rat)))
  { month := monthName m, monthNumber := m, averageBalance := round2 agg.avg,
    totalBalance := round2 agg.total, userCount := agg.count,
    avgTrend := ac.1, totalTrend := tc.1, userTrend := uc.1,
    avgChangePercentage := ac.2, totalChangePercentage := tc.2,
    userChangePercentage := uc.2, newUsers := countNewUsers us year m }

/-- The month loop of get_balance_summary: the prev baseline is overwritten
unconditionally with the current month's aggregates. -/
def balanceMonthlyStats (ws : List WalletRow) (us : List UserRow) (year : Nat)
    (months : List Nat) (prev_avg prev_total : Option Rat) (prev_count : Option Nat) :
    List MonthlyBalanceStat :=
  match months with
  | [] => []
  | m :: rest =>
      let agg := walletAgg ws year m
      mkBalStat ws us year m prev_avg prev_total prev_count ::
        balanceMonthlyStats ws us year rest (some agg.avg) (some agg.total) (some agg.count)

/-- Overall statistics object of the balance summary. -/
structure OverallBalanceStats where
  totalUsers : Nat
  currentTotalBalance : Rat
  currentAverageBalance : Rat
  avgMonthOverMonthGrowth : Rat
  totalMonthOverMonthGrowth : Rat
  userMonthOverMonthGrowth : Rat
  totalNewUsersThisYear : Nat
deriving Repr, DecidableEq

/-- Response of GET /admin/balances/summary (lastUpdated omitted). -/
structure BalanceSummaryResponse where
  monthlyStats : List MonthlyBalanceStat
  overallStats : OverallBalanceStats
deriving Repr, DecidableEq

/-- get_balance_summary from src/app/api/routes/v1/admin.py, for months
January through current_month of the given year. -/
def get_balance_summary (ws : List WalletRow) (us : List UserRow)
    (year current_month : Nat) : BalanceSummaryResponse :=
  let months := List.range' 1 current_month
  let monthlyStats := balanceMonthlyStats ws us year months none none none
  let total_new_users := (months.map (fun m => countNewUsers us year m)).sum
  let latest? := monthlyStats.getLast?
  let second? :=
    if 2 ≤ monthlyStats.length then monthlyStats.get? (monthlyStats.length - 2) else none
  let growth := fun (curr prev : Rat) =>
    if prev = 0 then (if curr > 0 then (100 : Rat) else 0)
    else round2 ((curr - prev) / prev * 100)
  let eg := fun (f : MonthlyBalanceStat → Rat) =>
    match latest?, second? with
    | some l, some s => growth (f l) (f s)
    | _, _ => 0
  { monthlyStats := monthlyStats,
    overallStats :=
      { totalUsers := (latest?.map (fun l => l.userCount)).getD 0
        currentTotalBalance := (latest?.map (fun l => l.totalBalance)).getD 0
        currentAverageBalance := (latest?.map (fun l => l.averageBalance)).getD 0
        avgMonthOverMonthGrowth := eg (fun s => s.averageBalance)
        totalMonthOverMonthGrowth := eg (fun s => s.totalBalance)
        userMonthOverMonthGrowth := eg (fun s => (s.userCount : Rat))
        totalNewUsersThisYear := total_new_users } }

/-- check_rate_limit from src/app/api/dependencies.py.  Returns the raised
HTTPException (if any) together with the resulting rate_limit_logs table.  The
two datetime.utcnow() calls of the source run within the same request and are
modelled as the same instant now, in seconds.  The recent-attempts selection
(same email, same endpoint, created within the window) is split out as
rateMatching. -/
def rateMatching (log : List RateLimitLog) (now : Int) (email endpoint : String)
    (window_minutes : Nat) : List RateLimitLog :=
  log.filter (fun r => r.email == email && r.endpoint == endpoint &&
    decide (now - (window_minutes : Int) * 60 ≤ r.created_at))

/-- Main body of check_rate_limit: raise 429 when the attempt count reaches
max_attempts and an oldest attempt exists, otherwise append one log row. -/
def check_rate_limit (log : List RateLimitLog) (now : Int) (nid : Nat)
    (client_ip email endpoint : String) (max_attempts window_minutes : Nat) :
    Option ApiError × List RateLimitLog :=
  let matching := rateMatching log now email endpoint window_minutes
  let raised : Option ApiError :=
    if max_attempts ≤ matching.length then
      match (matching.map (fun r => r.created_at)).min? with
      | some oldest =>
          let minutes_remaining := (oldest + (window_minutes : Int) * 60 - now).tdiv 60
          some ⟨429, "Too many attempts. Try again in " ++
                toString (max 1 minutes_remaining) ++ " minutes."⟩
      | none => none
    else none
  match raised with
  | some e => (some e, log)
  | none => (none, log ++ [⟨toString nid, email, endpoint, client_ip, now⟩])

/-- Predicate of the get_transactions where-clause: the user is sender or
recipient of the transaction. -/
def involvesUser (uid : String) (t : Transaction) : Bool :=
  t.sender_id == some uid || t.recipient_id == some uid

/-- GET /wallet/transactions: filter by participant, order by created_at
descending, then offset and limit. -/
def get_transactions (db : DB) (uid : String) (limit offset : Nat) : List Transaction :=
  (((db.transactions.filter (involvesUser uid)).mergeSort
      (fun a b => Nat.ble b.created_at a.created_at)).drop offset).take limit

/-! Helper lemmas about wallet lookup and mutation. -/

theorem findWallet_updateWallet_self (ws : List Wallet) (uid : String) (f : Rat → Rat) :
    findWallet (updateWallet ws uid f) uid =
      (findWallet ws uid).map (fun w => { w with balance := f w.balance }) := by
  induction ws with
  | nil => rfl
  | cons w rest ih =>
      by_cases h : w.user_id == uid
      · simp [updateWallet, findWallet, List.find?, h]
      · simp only [updateWallet, h, Bool.false_eq_true, if_false]
        simpa [findWallet, List.find?, h] using ih

theorem findWallet_updateWallet_ne (ws : List Wallet) (uid v : String) (f : Rat → Rat)
    (hne : v ≠ uid) :
    findWallet (updateWallet ws uid f) v = findWallet ws v := by
  induction ws with
  | nil => rfl
  | cons w rest ih =>
      by_cases h : w.user_id == uid
      · have huid : w.user_id = uid := by simpa using h
        have hv : (w.user_id == v) = false := by
          simp [huid]
          exact fun hc => hne hc.symm
        simp [updateWallet, findWallet, List.find?, h, hv]
      · simp only [updateWallet, h, Bool.false_eq_true, if_false]
        by_cases hv : w.user_id == v
        · simp [findWallet, List.find?, hv]
        · simpa [findWallet, List.find?, hv] using ih

theorem get_current_verified_user_id (users : List User) (uid : String) (u : User)
    (h : get_current_verified_user users uid = Except.ok u) : u.id = uid := by
  unfold get_current_verified_user at h
  cases hf : users.find? (fun x => x.id == uid) with
  | none => rw [hf] at h; cases h
  | some v =>
      rw [hf] at h
      have hv := List.find?_some hf
      by_cases ha : v.is_active
      · by_cases hb : v.is_verified
        · simp [ha, hb] at h
          subst h
          simpa using hv
        · simp [ha, hb] at h
      · simp [ha] at h

/-- Shared concrete database for witnesses and counterexamples: verified users
A (balance 100) and B (balance 0). -/
def demoDB : DB :=
  { users := [⟨"A", some "Alice", some "a@x", none, true, true, false⟩,
              ⟨"B", none, some "b@x", some "555", true, true, false⟩],
    wallets := [⟨"A", 100⟩, ⟨"B", 0⟩],
    transactions := [], notifications := [], nextId := 0, clock := 0 }

/-- C2: for every withdraw request (schema-validated, so with positive amount)
by an authenticated verified user whose wallet balance is strictly less than
the amount, the endpoint returns HTTP 400 with detail "Insufficient balance"
and the database is unchanged: the balance stays as it was and no Transaction
row is inserted. -/
theorem C2_withdraw_insufficient (db : DB) (uid : String) (a : Rat) (card : String)
    (u : User) (w : Wallet)
    (hauth : get_current_verified_user db.users uid = Except.ok u)
    (hpos : 0 < a)
    (hw : findWallet db.wallets uid = some w)
    (hlt : w.balance < a) :
    withdrawEndpoint db uid a card = (Except.error ⟨400, "Insufficient balance"⟩, db) := by
  have hid := get_current_verified_user_id _ _ _ hauth
  have hnle : ¬ a ≤ 0 := not_le.mpr hpos
  simp only [withdrawEndpoint, hauth]
  rw [if_neg hnle]
  simp only [withdraw_wallet, hid, hw]
  rw [if_neg hnle, if_pos hlt]

theorem C2_withdraw_insufficient_witness :
    (0 : Rat) < 1500 ∧ (100 : Rat) < 1500 ∧
    withdrawEndpoint demoDB "A" 1500 "card" =
      (Except.error ⟨400, "Insufficient balance"⟩, demoDB) :=
  ⟨by decide, by decide,
   C2_withdraw_insufficient demoDB "A" 1500 "card"
     ⟨"A", some "Alice", some "a@x", none, true, true, false⟩ ⟨"A", 100⟩
     rfl (by decide) (by decide) (by decide)⟩

/-- C3: for every deposit request (schema-validated positive amount) by an
authenticated verified user: when the wallet exists with balance b, the new
balance is b + amount, exactly one Transaction row with type deposit, null
sender, the user as recipient, and that amount is appended, and the updated
wallet is returned; when no wallet exists the endpoint returns 404 and the
database is unchanged. -/
theorem C3_deposit_effects (db : DB) (uid : String) (a : Rat) (card : String) (u : User)
    (hauth : get_current_verified_user db.users uid = Except.ok u)
    (hpos : 0 < a) :
    (∀ w, findWallet db.wallets uid = some w →
       depositEndpoint db uid a card =
         (Except.ok { w with balance := w.balance + a },
          { db with
              wallets := updateWallet db.wallets uid (fun b => b + a),
              transactions := db.transactions ++
                [{ id := toString db.nextId, sender_id := none, recipient_id := some uid,
                   amount := a, card_id := some card, description := none,
                   type := "deposit", status := "completed", created_at := db.clock }],
              nextId := db.nextId + 1, clock := db.clock + 1 }) ∧
       findWallet (updateWallet db.wallets uid (fun b => b + a)) uid =
         some { w with balance := w.balance + a }) ∧
    (findWallet db.wallets uid = none →
       depositEndpoint db uid a card = (Except.error ⟨404, "Wallet not found"⟩, db)) := by
  have hid := get_current_verified_user_id _ _ _ hauth
  have hnle : ¬ a ≤ 0 := not_le.mpr hpos
  constructor
  · intro w hw
    constructor
    · simp only [depositEndpoint, hauth]
      rw [if_neg hnle]
      simp only [top_up_wallet, hid, hw]
    · rw [findWallet_updateWallet_self, hw]
      rfl
  · intro hw
    simp only [depositEndpoint, hauth]
    rw [if_neg hnle]
    simp only [top_up_wallet, hid, hw]

theorem C3_deposit_effects_witness :
    (0 : Rat) < 25 ∧ findWallet demoDB.wallets "A" = some ⟨"A", 100⟩ ∧
    depositEndpoint demoDB "A" 25 "card" =
      (Except.ok ⟨"A", 125⟩,
       { demoDB with
           wallets := updateWallet demoDB.wallets "A" (fun b => b + 25),
           transactions := [{ id := "0", sender_id := none, recipient_id := some "A",
                              amount := 25, card_id := some "card", description := none,
                              type := "deposit", status := "completed", created_at := 0 }],
           nextId := 1, clock := 1 }) := by
  refine ⟨by decide, by decide, ?_⟩
  have h := (C3_deposit_effects demoDB "A" 25 "card"
    ⟨"A", some "Alice", some "a@x", none, true, true, false⟩ rfl (by decide)).1
    ⟨"A", 100⟩ (by decide)
  rw [h.1]
  norm_num [demoDB]
  decide

/-- C4: a deposit, withdraw, or transfer request whose amount is zero or
negative is rejected (an error response) with no database write at all: the
state is returned unchanged and no websocket push happens. -/
theorem C4_nonpositive_amount_rejected (db : DB) (conns : List String) (uid : String)
    (a : Rat) (card identifier : String) (description : Option String)
    (hle : a ≤ 0) :
    ((depositEndpoint db uid a card).2 = db ∧
     ∃ e, (depositEndpoint db uid a card).1 = Except.error e) ∧
    ((withdrawEndpoint db uid a card).2 = db ∧
     ∃ e, (withdrawEndpoint db uid a card).1 = Except.error e) ∧
    ((transferEndpoint db conns uid a identifier description).2.1 = db ∧
     (transferEndpoint db conns uid a identifier description).2.2 = [] ∧
     ∃ e, (transferEndpoint db conns uid a identifier description).1 = Except.error e) := by
  refine ⟨?_, ?_, ?_⟩
  · cases h : get_current_verified_user db.users uid with
    | error e => simp [depositEndpoint, h]
    | ok u => simp [depositEndpoint, h, hle]
  · cases h : get_current_verified_user db.users uid with
    | error e => simp [withdrawEndpoint, h]
    | ok u => simp [withdrawEndpoint, h, hle]
  · cases h : get_current_verified_user db.users uid with
    | error e => simp [transferEndpoint, h]
    | ok u => simp [transferEndpoint, h, hle]

theorem C4_nonpositive_amount_rejected_witness :
    (-5 : Rat) ≤ 0 ∧ (depositEndpoint demoDB "A" (-5) "card").2 = demoDB ∧
    (withdrawEndpoint demoDB "A" (-5) "card").2 = demoDB ∧
    (transferEndpoint demoDB [] "A" (-5) "b@x" none).2.1 = demoDB := by
  have h := C4_nonpositive_amount_rejected demoDB [] "A" (-5) "card" "b@x" none (by decide)
  exact ⟨by decide, h.1.1, h.2.1.1, h.2.2.1⟩

/-- C1 counterexample: a verified user may transfer to their own email; the
request succeeds (HTTP 200) but the sender's balance does not decrease by the
amount — it is unchanged, because debit and credit hit the same wallet row. -/
theorem C1_counterexample :
    (∃ t, (transferEndpoint demoDB [] "A" 20 "a@x" (some "Test transfer")).1 =
      Except.ok t) ∧
    (findWallet (transferEndpoint demoDB [] "A" 20 "a@x"
        (some "Test transfer")).2.1.wallets "A").map Wallet.balance = some 100 ∧
    ¬ (findWallet (transferEndpoint demoDB [] "A" 20 "a@x"
        (some "Test transfer")).2.1.wallets "A").map Wallet.balance =
      some (100 - 20) := by
  have hat : pyCharIn '@' "a@x" = true := by decide
  refine ⟨?_, ?_, ?_⟩ <;>
    norm_num [transferEndpoint, get_current_verified_user, transfer_money, demoDB,
      findWallet, resolveRecipient, get_user_by_email, get_user_by_phone, hat,
      List.find?, updateWallet, notify_user]

/-- C1 (amended): for every transfer request that completes successfully and
whose resolved recipient is a user other than the sender, the sender's wallet
decreases by the amount, the recipient's wallet increases by the amount,
exactly one completed "transfer" Transaction row referencing both parties with
that amount is appended, and exactly two Notification rows are appended — the
sender's titled "Transfer Successful" and the recipient's titled "You've
Received Money". -/
theorem C1_transfer_success_effects (db : DB) (conns : List String) (uid : String)
    (a : Rat) (identifier : String) (description : Option String) (t : Transaction)
    (r : User) (sw rw : Wallet)
    (hok : (transferEndpoint db conns uid a identifier description).1 = Except.ok t)
    (hr : resolveRecipient db.users identifier = some r)
    (hne : r.id ≠ uid)
    (hsw : findWallet db.wallets uid = some sw)
    (hrw : findWallet db.wallets r.id = some rw) :
    findWallet (transferEndpoint db conns uid a identifier description).2.1.wallets uid =
      some { sw with balance := sw.balance - a } ∧
    findWallet (transferEndpoint db conns uid a identifier description).2.1.wallets r.id =
      some { rw with balance := rw.balance + a } ∧
    (transferEndpoint db conns uid a identifier description).2.1.transactions =
      db.transactions ++ [t] ∧
    t.type = "transfer" ∧ t.sender_id = some uid ∧ t.recipient_id = some r.id ∧
    t.amount = a ∧ t.status = "completed" ∧
    ((transferEndpoint db conns uid a identifier description).2.1.notifications).map
        (fun n => (n.user_id, n.title)) =
      db.notifications.map (fun n => (n.user_id, n.title)) ++
        [(uid, "Transfer Successful"), (r.id, "You've Received Money")] := by
  cases hauth : get_current_verified_user db.users uid with
  | error e => simp [transferEndpoint, hauth] at hok
  | ok u =>
      have hid := get_current_verified_user_id _ _ _ hauth
      by_cases hle : a ≤ 0
      · simp [transferEndpoint, hauth, if_pos hle] at hok
      · simp only [transferEndpoint, hauth, if_neg hle] at hok ⊢
        by_cases hbal : sw.balance < a
        · simp [transfer_money, hid, hsw, if_pos hbal] at hok
        · simp only [transfer_money, hid, hsw, if_neg hbal, hr, hrw, notify_user] at hok ⊢
          simp only [Except.ok.injEq] at hok
          subst hok
          refine ⟨?_, ?_, by simp, rfl, rfl, rfl, rfl, rfl, by simp⟩
          · rw [findWallet_updateWallet_ne _ _ _ _ (Ne.symm hne),
              findWallet_updateWallet_self, hsw]
            rfl
          · rw [findWallet_updateWallet_self,
              findWallet_updateWallet_ne _ _ _ _ hne, hrw]
            rfl

/-- The transaction row inserted by the witness transfer of A sending 20 to B
on demoDB. -/
def demoTransferTx : Transaction :=
  ⟨"0", some "A", some "B", 20, none, some "Test transfer", "transfer", "completed", 0⟩

theorem C1_transfer_success_effects_witness :
    resolveRecipient demoDB.users "b@x" = some ⟨"B", none, some "b@x", some "555",
      true, true, false⟩ ∧
    findWallet (transferEndpoint demoDB [] "A" 20 "b@x"
        (some "Test transfer")).2.1.wallets "A" = some ⟨"A", 100 - 20⟩ := by
  have hat : pyCharIn '@' "b@x" = true := by decide
  have s1 : ("a@x" == "b@x") = false := by decide
  have s2 : ("A" == "B") = false := by decide
  have s3 : ("B" == "A") = false := by decide
  have p1 : ¬ ("A" = "B") := by decide
  have p2 : ¬ ("B" = "A") := by decide
  have t0 : toString (0 : Nat) = "0" := by decide
  have hok : (transferEndpoint demoDB [] "A" 20 "b@x" (some "Test transfer")).1 =
      Except.ok demoTransferTx := by
    norm_num [transferEndpoint, get_current_verified_user, transfer_money, demoDB,
      findWallet, resolveRecipient, get_user_by_email, get_user_by_phone, hat,
      List.find?, updateWallet, notify_user, demoTransferTx, s1, s2, s3, p1, p2, t0]
  refine ⟨by decide, ?_⟩
  have h := C1_transfer_success_effects demoDB [] "A" 20 "b@x" (some "Test transfer")
    demoTransferTx
    ⟨"B", none, some "b@x", some "555", true, true, false⟩ ⟨"A", 100⟩ ⟨"B", 0⟩
    hok (by decide) (by decide) (by decide) (by decide)
  exact h.1

/-- C5 counterexample: the balance check precedes recipient resolution, so a
transfer with an unknown recipient but insufficient balance answers 400
"Insufficient balance", not 404 "Recipient not found". -/
theorem C5_counterexample :
    resolveRecipient demoDB.users "ghost@x" = none ∧
    transferEndpoint demoDB [] "A" 2000 "ghost@x" none =
      (Except.error ⟨400, "Insufficient balance"⟩, demoDB, []) ∧
    (⟨400, "Insufficient balance"⟩ : ApiError) ≠ ⟨404, "Recipient not found"⟩ := by
  refine ⟨by decide, ?_, by decide⟩
  norm_num [transferEndpoint, get_current_verified_user, transfer_money, demoDB,
    findWallet, List.find?]

/-- C5 (amended): for every transfer request with a schema-valid positive
amount by an authenticated verified user whose wallet covers the amount, when
the recipient identifier matches no user's email and no user's phone, the
endpoint returns 404 "Recipient not found" and the database is unchanged — no
Transaction row and no balance change. -/
theorem C5_recipient_not_found (db : DB) (conns : List String) (uid : String)
    (a : Rat) (identifier : String) (description : Option String) (u : User) (sw : Wallet)
    (hauth : get_current_verified_user db.users uid = Except.ok u)
    (hpos : 0 < a)
    (hsw : findWallet db.wallets uid = some sw)
    (hbal : ¬ sw.balance < a)
    (hr : resolveRecipient db.users identifier = none) :
    transferEndpoint db conns uid a identifier description =
      (Except.error ⟨404, "Recipient not found"⟩, db, []) := by
  have hid := get_current_verified_user_id _ _ _ hauth
  simp only [transferEndpoint, hauth, if_neg (not_le.mpr hpos), transfer_money, hid,
    hsw, if_neg hbal, hr]

theorem C5_recipient_not_found_witness :
    resolveRecipient demoDB.users "ghost@x" = none ∧
    transferEndpoint demoDB [] "A" 20 "ghost@x" none =
      (Except.error ⟨404, "Recipient not found"⟩, demoDB, []) :=
  ⟨by decide,
   C5_recipient_not_found demoDB [] "A" 20 "ghost@x" none
     ⟨"A", some "Alice", some "a@x", none, true, true, false⟩ ⟨"A", 100⟩
     rfl (by decide) (by decide) (by decide) (by decide)⟩

/-- C7: a self-transfer (recipient identifier resolving to the sender) by a
verified user with sufficient balance succeeds, leaves the wallet balance
unchanged, and still appends one "transfer" Transaction with sender equal to
recipient plus two Notification rows addressed to that same user. -/
theorem C7_self_transfer (db : DB) (conns : List String) (uid : String) (a : Rat)
    (identifier : String) (description : Option String) (u r : User) (sw : Wallet)
    (hauth : get_current_verified_user db.users uid = Except.ok u)
    (hpos : 0 < a)
    (hsw : findWallet db.wallets uid = some sw)
    (hbal : ¬ sw.balance < a)
    (hr : resolveRecipient db.users identifier = some r)
    (hrid : r.id = uid) :
    ∃ t, (transferEndpoint db conns uid a identifier description).1 = Except.ok t ∧
      t.type = "transfer" ∧ t.sender_id = some uid ∧ t.recipient_id = some uid ∧
      t.amount = a ∧
      (findWallet (transferEndpoint db conns uid a identifier
          description).2.1.wallets uid).map Wallet.balance = some sw.balance ∧
      (transferEndpoint db conns uid a identifier description).2.1.transactions =
        db.transactions ++ [t] ∧
      ((transferEndpoint db conns uid a identifier description).2.1.notifications).map
          (fun n => n.user_id) =
        db.notifications.map (fun n => n.user_id) ++ [uid, uid] := by
  have hid := get_current_verified_user_id _ _ _ hauth
  simp only [transferEndpoint, hauth, if_neg (not_le.mpr hpos)]
  simp only [transfer_money, hid, hsw, if_neg hbal, hr, hrid, notify_user]
  refine ⟨_, rfl, rfl, rfl, rfl, rfl, ?_, by simp, by simp⟩
  rw [findWallet_updateWallet_self, findWallet_updateWallet_self, hsw]
  simp

theorem C7_self_transfer_witness :
    resolveRecipient demoDB.users "a@x" = some ⟨"A", some "Alice", some "a@x", none,
      true, true, false⟩ ∧
    ∃ t, (transferEndpoint demoDB [] "A" 20 "a@x" none).1 = Except.ok t ∧
      t.type = "transfer" ∧ t.sender_id = some "A" ∧ t.recipient_id = some "A" ∧
      t.amount = 20 ∧
      (findWallet (transferEndpoint demoDB [] "A" 20 "a@x"
          none).2.1.wallets "A").map Wallet.balance = some (100 : Rat) ∧
      (transferEndpoint demoDB [] "A" 20 "a@x" none).2.1.transactions =
        demoDB.transactions ++ [t] ∧
      ((transferEndpoint demoDB [] "A" 20 "a@x" none).2.1.notifications).map
          (fun n => n.user_id) =
        demoDB.notifications.map (fun n => n.user_id) ++ ["A", "A"] :=
  ⟨by decide,
   C7_self_transfer demoDB [] "A" 20 "a@x" none
     ⟨"A", some "Alice", some "a@x", none, true, true, false⟩
     ⟨"A", some "Alice", some "a@x", none, true, true, false⟩ ⟨"A", 100⟩
     rfl (by decide) (by decide) (by decide) (by decide) (by decide)⟩

/-- C8: get_transactions returns only transactions of the requesting user (as
sender or recipient) drawn from the table, ordered newest first by created_at;
re-issuing the same query on the same state returns the same list; and with
offset 0 and a limit covering the whole selection it returns exactly the
user's transactions (a permutation of the filtered table). -/
theorem C8_get_transactions_spec (db : DB) (uid : String) (limit offset : Nat) :
    (∀ t ∈ get_transactions db uid limit offset,
       involvesUser uid t = true ∧ t ∈ db.transactions) ∧
    (get_transactions db uid limit offset).Pairwise
      (fun a b => b.created_at ≤ a.created_at) ∧
    get_transactions db uid limit offset = get_transactions db uid limit offset ∧
    ((db.transactions.filter (involvesUser uid)).length ≤ limit →
       (get_transactions db uid limit 0).Perm
         (db.transactions.filter (involvesUser uid))) := by
  have hperm := List.mergeSort_perm (db.transactions.filter (involvesUser uid))
    (fun a b => Nat.ble b.created_at a.created_at)
  have hsub : (get_transactions db uid limit offset).Sublist
      ((db.transactions.filter (involvesUser uid)).mergeSort
        (fun a b => Nat.ble b.created_at a.created_at)) := by
    unfold get_transactions
    exact (List.take_sublist _ _).trans (List.drop_sublist _ _)
  refine ⟨?_, ?_, rfl, ?_⟩
  · intro t ht
    have hf : t ∈ db.transactions.filter (involvesUser uid) :=
      hperm.subset (hsub.subset ht)
    have := List.mem_filter.mp hf
    exact ⟨this.2, this.1⟩
  · have hsorted := @List.sorted_mergeSort Transaction
      (fun a b => Nat.ble b.created_at a.created_at)
      (fun a b c hab hbc => by
        simp only [Nat.ble_eq] at hab hbc ⊢
        omega)
      (fun a b => by
        simp only [Bool.or_eq_true, Nat.ble_eq]
        omega)
      (db.transactions.filter (involvesUser uid))
    exact (List.Pairwise.sublist hsub hsorted).imp
      (fun hab => by simpa [Nat.ble_eq] using hab)
  · intro hlen
    have hlen2 : ((db.transactions.filter (involvesUser uid)).mergeSort
        (fun a b => Nat.ble b.created_at a.created_at)).length ≤ limit := by
      rw [hperm.length_eq]
      exact hlen
    unfold get_transactions
    rw [List.drop_zero, List.take_of_length_le hlen2]
    exact hperm

/-- Concrete transaction table for the C8 witness: three transactions touching
user A with distinct timestamps, one foreign transaction. -/
def demoTxDB : DB :=
  { users := demoDB.users, wallets := demoDB.wallets,
    transactions :=
      [⟨"t1", some "A", some "B", 5, none, none, "transfer", "completed", 1⟩,
       ⟨"t2", none, some "A", 7, some "card", none, "deposit", "completed", 3⟩,
       ⟨"t3", some "B", some "C", 2, none, none, "transfer", "completed", 2⟩,
       ⟨"t4", some "B", some "A", 4, none, none, "transfer", "completed", 2⟩],
    notifications := [], nextId := 9, clock := 9 }

theorem C8_get_transactions_spec_witness :
    (demoTxDB.transactions.filter (involvesUser "A")).length ≤ 50 ∧
    (get_transactions demoTxDB "A" 50 0).Perm
      (demoTxDB.transactions.filter (involvesUser "A")) :=
  ⟨by decide, (C8_get_transactions_spec demoTxDB "A" 50 0).2.2.2 (by decide)⟩

/-- C9 counterexample: an amount of 0.0 is supplied (not None), yet because the
source tests Python truthiness (if transaction_id or amount) the persisted
notification carries no extra_data, where the claim promises a payload
whenever a transaction_id or amount is supplied. -/
theorem C9_counterexample :
    (notify_user demoDB [] "A" "Credit" "msg" "system" none (some 0)).2.2.extra_data =
      none ∧
    (some (0 : Rat)).isSome = true := by
  exact ⟨by decide, by decide⟩

/-- C9 (amended): notify_user always appends exactly one Notification row for
the given user; the row carries a transactionId/amount extra_data payload
exactly when transaction_id or amount is Python-truthy (non-empty string,
nonzero amount) and null extra_data otherwise; the payload is pushed over the
websocket exactly when the user has a live connection in the process-wide
table; and nothing else in the state changes, so the call also succeeds with
the notification only persisted when no connection exists. -/
theorem C9_notify_user_spec (db : DB) (conns : List String)
    (uid title msg ty : String) (tid : Option String) (amt : Option Rat) :
    (notify_user db conns uid title msg ty tid amt).1.notifications =
      db.notifications ++ [(notify_user db conns uid title msg ty tid amt).2.2] ∧
    (notify_user db conns uid title msg ty tid amt).2.2.user_id = uid ∧
    ((pyTruthyStr tid || pyTruthyRat amt) = true →
       (notify_user db conns uid title msg ty tid amt).2.2.extra_data =
         some ⟨tid, amt⟩) ∧
    ((pyTruthyStr tid || pyTruthyRat amt) = false →
       (notify_user db conns uid title msg ty tid amt).2.2.extra_data = none) ∧
    (conns.contains uid = true →
       (notify_user db conns uid title msg ty tid amt).2.1 =
         [⟨uid, "new_notification", (notify_user db conns uid title msg ty tid amt).2.2⟩]) ∧
    (conns.contains uid = false →
       (notify_user db conns uid title msg ty tid amt).2.1 = []) ∧
    (notify_user db conns uid title msg ty tid amt).1.users = db.users ∧
    (notify_user db conns uid title msg ty tid amt).1.wallets = db.wallets ∧
    (notify_user db conns uid title msg ty tid amt).1.transactions = db.transactions := by
  refine ⟨by simp [notify_user], by simp [notify_user], ?_, ?_, ?_, ?_,
    by simp [notify_user], by simp [notify_user], by simp [notify_user]⟩
  · intro h
    simp [notify_user, h]
  · intro h
    simp [notify_user, h]
  · intro h
    have hmem : uid ∈ conns := by simpa using h
    simp [notify_user, hmem]
  · intro h
    have hmem : uid ∉ conns := by simpa using h
    simp [notify_user, hmem]

theorem C9_notify_user_spec_witness :
    (["A"].contains "A" = true) ∧
    (notify_user demoDB ["A"] "A" "Hi" "msg" "system" none none).2.1 =
      [⟨"A", "new_notification",
        (notify_user demoDB ["A"] "A" "Hi" "msg" "system" none none).2.2⟩] :=
  ⟨by decide,
   (C9_notify_user_spec demoDB ["A"] "A" "Hi" "msg" "system" none none).2.2.2.2.1
     (by decide)⟩

/-- C10 counterexample: with max_attempts = 0 the attempt count (0) already
reaches max_attempts, yet no 429 is raised (the window holds no oldest
attempt, so the raise is skipped) and a new attempt row is still logged. -/
theorem C10_counterexample :
    check_rate_limit [] 0 0 "ip" "e@x" "send" 0 60 =
      (none, [⟨"0", "e@x", "send", "ip", 0⟩]) ∧
    (∀ e : ApiError, (check_rate_limit [] 0 0 "ip" "e@x" "send" 0 60).1 ≠ some e) ∧
    0 ≤ (rateMatching [] 0 "e@x" "send" 60).length := by
  refine ⟨by decide, ?_, by decide⟩
  intro e
  have h : (check_rate_limit [] 0 0 "ip" "e@x" "send" 0 60).1 = none := by decide
  rw [h]
  simp

/-- C10 (amended): for max_attempts at least 1, when the attempts logged for
the email and endpoint within the window number at least max_attempts, the
call raises 429 whose detail reports max(1, remaining) minutes computed from
the oldest attempt in the window — hence at least one minute — and the log is
unchanged; otherwise no error is raised and exactly one new row is logged. -/
theorem C10_rate_limit_spec (log : List RateLimitLog) (now : Int) (nid : Nat)
    (client_ip email endpoint : String) (max_attempts window_minutes : Nat)
    (hmax : 1 ≤ max_attempts) :
    (max_attempts ≤ (rateMatching log now email endpoint window_minutes).length →
       ∃ oldest m,
         ((rateMatching log now email endpoint window_minutes).map
             (fun r => r.created_at)).min? = some oldest ∧
         m = max 1 ((oldest + (window_minutes : Int) * 60 - now).tdiv 60) ∧
         1 ≤ m ∧
         check_rate_limit log now nid client_ip email endpoint max_attempts
             window_minutes =
           (some ⟨429, "Too many attempts. Try again in " ++ toString m ++
              " minutes."⟩, log)) ∧
    ((rateMatching log now email endpoint window_minutes).length < max_attempts →
       check_rate_limit log now nid client_ip email endpoint max_attempts
           window_minutes =
         (none, log ++ [⟨toString nid, email, endpoint, client_ip, now⟩])) := by
  constructor
  · intro hle
    cases hm : rateMatching log now email endpoint window_minutes with
    | nil =>
        rw [hm] at hle
        simp at hle
        omega
    | cons x xs =>
        rw [hm] at hle
        refine ⟨((xs.map (fun r => r.created_at)).foldl min x.created_at),
          max 1 ((((xs.map (fun r => r.created_at)).foldl min x.created_at) +
            (window_minutes : Int) * 60 - now).tdiv 60),
          by simp [List.min?], rfl, le_max_left _ _, ?_⟩
        simp only [check_rate_limit, hm, if_pos hle]
        simp [List.min?]
  · intro hlt
    simp only [check_rate_limit, if_neg (not_le.mpr hlt)]

theorem C10_rate_limit_spec_witness :
    (1 ≤ 3) ∧ ((rateMatching [] 0 "e@x" "send" 60).length < 3) ∧
    check_rate_limit [] 0 5 "ip" "e@x" "send" 3 60 =
      (none, [⟨"5", "e@x", "send", "ip", 0⟩]) :=
  ⟨by decide, by decide,
   (C10_rate_limit_spec [] 0 5 "ip" "e@x" "send" 3 60 (by decide)).2 (by decide)⟩

/-- The previous-valid-average baseline left after the transaction-summary
loop processes the given months: the average of the last month among them with
positive average, or the initial baseline when none has one. -/
def lastValidAvg (rows : List TxRow) (year : Nat) (months : List Nat)
    (init : Option Rat) : Option Rat :=
  match months with
  | [] => init
  | m :: rest =>
      lastValidAvg rows year rest
        (if (txAgg rows year m).avg > 0 then some (txAgg rows year m).avg else init)

theorem txMonthlyStats_get? (rows : List TxRow) (year : Nat) (months : List Nat)
    (init : Option Rat) (i : Nat) (h : i < months.length) :
    (txMonthlyStats rows year months init).get? i =
      some (mkTxStat rows year (months.getD i 0)
        (lastValidAvg rows year (months.take i) init)) := by
  induction months generalizing init i with
  | nil => simp at h
  | cons m rest ih =>
      cases i with
      | zero => simp [txMonthlyStats, lastValidAvg]
      | succ j =>
          have hj : j < rest.length := by simpa using h
          simp only [txMonthlyStats, List.get?_cons_succ, List.getD_cons_succ,
            List.take_succ_cons]
          rw [ih _ _ hj]
          rfl

theorem balanceMonthlyStats_get?_succ (ws : List WalletRow) (us : List UserRow)
    (year : Nat) (months : List Nat) (pa pt : Option Rat) (pc : Option Nat) (i : Nat)
    (h : i + 1 < months.length) :
    (balanceMonthlyStats ws us year months pa pt pc).get? (i + 1) =
      some (mkBalStat ws us year (months.getD (i + 1) 0)
        (some (walletAgg ws year (months.getD i 0)).avg)
        (some (walletAgg ws year (months.getD i 0)).total)
        (some (walletAgg ws year (months.getD i 0)).count)) := by
  induction months generalizing pa pt pc i with
  | nil => simp at h
  | cons m rest ih =>
      cases i with
      | zero =>
          cases rest with
          | nil => simp at h
          | cons m2 rest2 => simp [balanceMonthlyStats]
      | succ j =>
          have hj : j + 1 < rest.length := by simpa using h
          simp only [balanceMonthlyStats, List.get?_cons_succ, List.getD_cons_succ]
          rw [ih _ _ _ _ hj]

theorem range'_getD (s M i : Nat) (h : i < M) : (List.range' s M).getD i 0 = s + i := by
  induction M generalizing s i with
  | zero => exact absurd h (Nat.not_lt_zero i)
  | succ n ih =>
      cases i with
      | zero => simp [List.range']
      | succ j =>
          have hj : j < n := by omega
          simp only [List.range', List.getD_cons_succ]
          rw [ih _ _ hj]
          omega

theorem range'_take (s M i : Nat) (h : i ≤ M) :
    (List.range' s M).take i = List.range' s i := by
  induction i generalizing s M with
  | zero => simp
  | succ j ih =>
      cases M with
      | zero => exact absurd h (by omega)
      | succ n =>
          simp only [List.range', List.take_succ_cons]
          rw [ih (s + 1) n (by omega)]

/-- C6 counterexample: wallet data with month 1 average 10, month 2 empty,
month 3 average 5.  The claim predicts month 3 compared against the last
nonzero month (average 10): trend "down", change -50.  The balance summary
instead compares against the immediately preceding (zero) month and reports
trend "up", change 100. -/
theorem C6_counterexample :
    ((get_balance_summary [⟨1, 2025, 10⟩, ⟨3, 2025, 5⟩] [] 2025 3).monthlyStats.get? 2).map
        (fun s => (s.avgTrend, s.avgChangePercentage)) = some ("up", 100) ∧
    calc_change 5 (some 10) = ("down", -50) ∧
    ¬ (("up", (100 : Rat)) = ("down", (-50 : Rat))) ∧
    (walletAgg [⟨1, 2025, 10⟩, ⟨3, 2025, 5⟩] 2025 2).count = 0 ∧
    (walletAgg [⟨1, 2025, 10⟩, ⟨3, 2025, 5⟩] 2025 1).avg = 10 := by
  have hr : List.range' 1 3 = [1, 2, 3] := by decide
  refine ⟨?_, ?_, ?_, by decide, ?_⟩
  · norm_num [get_balance_summary, hr, balanceMonthlyStats, mkBalStat, walletAgg,
      calc_change, countNewUsers, round2, round_eq]
  · norm_num [calc_change, round2, round_eq]
  · intro hcontra
    have := congrArg Prod.fst hcontra
    simp at this
  · norm_num [walletAgg]

/-- C6 (amended): in the transaction volume summary a month with zero data
contributes zero values and does not update the previous-valid baseline, so
each month's trend and change are computed against the last earlier month with
nonzero data; the wallet balance summary instead always compares a month
against the immediately preceding month's aggregates, zero or not. -/
theorem C6_summary_baselines :
    (∀ (rows : List TxRow) (year M i : Nat), i < M →
       (get_admin_transaction_summary rows year M).monthlyStats.get? i =
         some (mkTxStat rows year (1 + i)
           (lastValidAvg rows year (List.range' 1 i) none))) ∧
    (∀ (rows : List TxRow) (year m : Nat) (init : Option Rat),
       (txAgg rows year m).count = 0 →
         (mkTxStat rows year m init).averageAmount = 0 ∧
         (mkTxStat rows year m init).totalVolume = 0 ∧
         (mkTxStat rows year m init).totalTransactions = 0 ∧
         lastValidAvg rows year [m] init = init) ∧
    (∀ (ws : List WalletRow) (us : List UserRow) (year M i : Nat), i + 1 < M →
       (get_balance_summary ws us year M).monthlyStats.get? (i + 1) =
         some (mkBalStat ws us year (1 + (i + 1))
           (some (walletAgg ws year (1 + i)).avg)
           (some (walletAgg ws year (1 + i)).total)
           (some (walletAgg ws year (1 + i)).count))) := by
  refine ⟨?_, ?_, ?_⟩
  · intro rows year M i hi
    have hlen : i < (List.range' 1 M).length := by simpa using hi
    have h := txMonthlyStats_get? rows year (List.range' 1 M) none i hlen
    rw [range'_getD 1 M i hi, range'_take 1 M i (le_of_lt hi)] at h
    exact h
  · intro rows year m init hcount
    have hsel : (rows.filter (fun r => r.month == m && r.year == year)) = [] := by
      have := hcount
      simpa [txAgg, List.length_eq_zero] using this
    have hagg : txAgg rows year m = ⟨0, 0, 0⟩ := by
      simp [txAgg, hsel]
    refine ⟨?_, ?_, ?_, ?_⟩
    · simp [mkTxStat, hagg, round2, round_eq]
      norm_num
    · simp [mkTxStat, hagg, round2, round_eq]
      norm_num
    · simp [mkTxStat, hagg]
    · simp [lastValidAvg, hagg]
  · intro ws us year M i hi
    have hlen : i + 1 < (List.range' 1 M).length := by simpa using hi
    have h := balanceMonthlyStats_get?_succ ws us year (List.range' 1 M) none none none i hlen
    rw [range'_getD 1 M (i + 1) hi, range'_getD 1 M i (by omega)] at h
    exact h

theorem C6_summary_baselines_witness :
    0 < 1 ∧
    (get_admin_transaction_summary [] 2025 1).monthlyStats.get? 0 =
      some (mkTxStat [] 2025 (1 + 0) (lastValidAvg [] 2025 (List.range' 1 0) none)) :=
  ⟨by decide, C6_summary_baselines.1 [] 2025 1 0 (by decide)⟩

end SmartPay
